import Mathlib

/-!
A verification development for the mouser-mcp-docker repository: a shallow
embedding of the dual-key Mouser API client (`src/mouser_mcp/client.py`),
the eight domain operations (`src/mouser_mcp/api/{search,cart,order,order_history}.py`),
and the server-side health/status capabilities (`src/mouser_mcp/server.py`),
together with theorems about validation, request shaping, key-header
selection and error wrapping.

Machine integers of the source are Python integers (unbounded), embedded as
`Int`. Python strings are embedded as `String`; only ASCII whitespace is
modelled for `str.strip`, which covers every character the claims exercise.
-/

/-- ASCII whitespace characters stripped by Python `str.strip()`. -/
def isPySpace (c : Char) : Bool :=
  c == ' ' || c == '\t' || c == '\n' || c == '\r' || c == '\x0b' || c == '\x0c'

/-- Python `s.strip()` (default arguments), as a character list. -/
def pyStrip (s : String) : List Char :=
  ((s.toList.dropWhile isPySpace).reverse.dropWhile isPySpace).reverse

/-- Python truthiness test `not s.strip()`: the string is empty or
whitespace-only. -/
def pyBlank (s : String) : Bool := (pyStrip s).isEmpty

/-- Python truthiness of a string: non-empty. -/
def pyTruthy (s : String) : Bool := !(s == "")

/-- Decides whether `small` is a prefix of `big` (character lists). -/
def listPrefixOf : List Char → List Char → Bool
  | [], _ => true
  | _ :: _, [] => false
  | a :: as, b :: bs => a == b && listPrefixOf as bs

/-- Decides whether `needle` occurs as a contiguous run inside `hay`. -/
def listInfixOf (needle : List Char) : List Char → Bool
  | [] => needle.isEmpty
  | c :: rest => listPrefixOf needle (c :: rest) || listInfixOf needle rest

/-- Python substring containment `needle in hay`. -/
def strContains (hay needle : String) : Bool :=
  listInfixOf needle.toList hay.toList

/-- Python `s.lstrip(c)` for a single slash, used by the client to build URLs. -/
def lstripSlash (s : String) : String :=
  String.mk (s.toList.dropWhile (fun c => c == '/'))

/-- JSON values, the payload language of the Mouser API. Object fields keep
their construction order, mirroring Python dict literals. -/
inductive Json where
  | null
  | bool (b : Bool)
  | int (n : Int)
  | str (s : String)
  | arr (xs : List Json)
  | obj (fields : List (String × Json))

/-- HTTP methods used by `APIClient`. -/
inductive Method where
  | get
  | post
  | put
  | delete
  deriving DecidableEq, Repr

/-- The request-level information a domain operation hands to the client:
verb, relative endpoint path, query parameters and optional JSON body.
This is exactly the argument list of `client.get`/`client.post` in the
source. -/
structure Call where
  method : Method
  endpoint : String
  params : List (String × String)
  body : Option Json

/-- The exceptions the underlying HTTP dispatch can raise: timeouts,
connection errors, `raise_for_status` on a non-2xx status, and JSON
decoding failures of the response body. -/
inductive TransportExn where
  | timeout
  | connectionError (detail : String)
  | httpStatus (code : Int) (detail : String)
  | jsonDecode (detail : String)
  deriving DecidableEq, Repr

/-- Python `str(e)` rendering of a transport exception, as interpolated into
the `RuntimeError` message by each operation's f-string. -/
def TransportExn.toStr : TransportExn → String
  | .timeout => "timed out"
  | .connectionError d => d
  | .httpStatus code d => toString code ++ " " ++ d
  | .jsonDecode d => d

/-- The transport oracle a domain operation dispatches through: it either
returns the parsed JSON response or raises a transport exception. -/
def Dispatch : Type := Call → Except TransportExn Json

/-- Outcome of one domain operation: a `ValueError` raised by validation
before any request exists, a successful JSON response, or a `RuntimeError`
wrapping the transport cause. The trace lists the calls handed to the
client, in order. -/
inductive OpResult where
  | valueError (msg : String)
  | ok (response : Json) (trace : List Call)
  | runtimeError (msg : String) (cause : TransportExn) (trace : List Call)

/-- The calls a finished operation handed to the client. A validation
failure is raised before the client is even obtained, so its trace is
empty. -/
def OpResult.trace : OpResult → List Call
  | .valueError _ => []
  | .ok _ t => t
  | .runtimeError _ _ t => t

/-- Whether the operation ended in a `ValueError` from validation. -/
def OpResult.isValueError : OpResult → Bool
  | .valueError _ => true
  | _ => false

/-- The request built by `search_by_keyword`: POST `search/keyword` with the
`keyword`/`records`/`startingRecord` fields nested under
`SearchByKeywordRequest`. -/
def searchByKeywordCall (keyword : String) (records start_record : Int) : Call :=
  { method := .post, endpoint := "search/keyword", params := [],
    body := some (.obj [("SearchByKeywordRequest", .obj
      [("keyword", .str keyword),
       ("records", .int records),
       ("startingRecord", .int start_record)])]) }

/-- `search_by_keyword` from `api/search.py`. -/
def search_by_keyword (keyword : String) (records start_record : Int)
    (dispatch : Dispatch) : OpResult :=
  if pyBlank keyword then .valueError "Keyword cannot be empty"
  else if records > 50 then .valueError "Maximum 50 records per request (API limit)"
  else if records < 1 then .valueError "Records must be at least 1"
  else
    let call := searchByKeywordCall keyword records start_record
    match dispatch call with
    | .ok j => .ok j [call]
    | .error e => .runtimeError ("Failed to search by keyword: " ++ e.toStr) e [call]

/-- The request built by `search_by_part_number`: POST `search/partnumber`
with `mouserPartNumber` nested under `SearchByPartRequest`. -/
def searchByPartNumberCall (part_number : String) : Call :=
  { method := .post, endpoint := "search/partnumber", params := [],
    body := some (.obj [("SearchByPartRequest", .obj
      [("mouserPartNumber", .str part_number)])]) }

/-- `search_by_part_number` from `api/search.py`. -/
def search_by_part_number (part_number : String) (dispatch : Dispatch) : OpResult :=
  if pyBlank part_number then .valueError "Part number cannot be empty"
  else
    let call := searchByPartNumberCall part_number
    match dispatch call with
    | .ok j => .ok j [call]
    | .error e => .runtimeError ("Failed to search by part number: " ++ e.toStr) e [call]

/-- The request built by `get_cart`: GET `cart` with `cartKey` as a query
parameter. -/
def getCartCall (cart_key : String) : Call :=
  { method := .get, endpoint := "cart", params := [("cartKey", cart_key)], body := none }

/-- `get_cart` from `api/cart.py`. -/
def get_cart (cart_key : String) (dispatch : Dispatch) : OpResult :=
  if pyBlank cart_key then .valueError "Cart key cannot be empty"
  else
    let call := getCartCall cart_key
    match dispatch call with
    | .ok j => .ok j [call]
    | .error e => .runtimeError ("Failed to retrieve cart: " ++ e.toStr) e [call]

/-- The request built by `add_to_cart`: POST `cart/items/insert` with a
single item object under `CartKey`/`CartItems`. -/
def addToCartCall (cart_key mouser_part_number : String) (quantity : Int)
    (customer_part_number : String) : Call :=
  { method := .post, endpoint := "cart/items/insert", params := [],
    body := some (.obj
      [("CartKey", .str cart_key),
       ("CartItems", .arr [.obj
         [("MouserPartNumber", .str mouser_part_number),
          ("Quantity", .int quantity),
          ("CustomerPartNumber", .str customer_part_number)]])]) }

/-- `add_to_cart` from `api/cart.py`. `customer_part_number` defaults to the
empty string at the Python call sites. -/
def add_to_cart (cart_key mouser_part_number : String) (quantity : Int)
    (customer_part_number : String) (dispatch : Dispatch) : OpResult :=
  if pyBlank cart_key then .valueError "Cart key cannot be empty"
  else if pyBlank mouser_part_number then .valueError "Mouser part number cannot be empty"
  else if quantity < 1 then .valueError "Quantity must be at least 1"
  else
    let call := addToCartCall cart_key mouser_part_number quantity customer_part_number
    match dispatch call with
    | .ok j => .ok j [call]
    | .error e => .runtimeError ("Failed to add item to cart: " ++ e.toStr) e [call]

/-- The request built by `update_cart_item`: POST `cart/items/update`; the
item object has no `CustomerPartNumber` field. -/
def updateCartItemCall (cart_key mouser_part_number : String) (quantity : Int) : Call :=
  { method := .post, endpoint := "cart/items/update", params := [],
    body := some (.obj
      [("CartKey", .str cart_key),
       ("CartItems", .arr [.obj
         [("MouserPartNumber", .str mouser_part_number),
          ("Quantity", .int quantity)]])]) }

/-- `update_cart_item` from `api/cart.py`. -/
def update_cart_item (cart_key mouser_part_number : String) (quantity : Int)
    (dispatch : Dispatch) : OpResult :=
  if pyBlank cart_key then .valueError "Cart key cannot be empty"
  else if pyBlank mouser_part_number then .valueError "Mouser part number cannot be empty"
  else if quantity < 0 then .valueError "Quantity cannot be negative"
  else
    let call := updateCartItemCall cart_key mouser_part_number quantity
    match dispatch call with
    | .ok j => .ok j [call]
    | .error e => .runtimeError ("Failed to update cart item: " ++ e.toStr) e [call]

/-- The request built by `get_order_options`: POST `order/options/query`. -/
def getOrderOptionsCall (cart_key : String) : Call :=
  { method := .post, endpoint := "order/options/query", params := [],
    body := some (.obj [("CartKey", .str cart_key)]) }

/-- `get_order_options` from `api/order.py`. -/
def get_order_options (cart_key : String) (dispatch : Dispatch) : OpResult :=
  if pyBlank cart_key then .valueError "Cart key cannot be empty"
  else
    let call := getOrderOptionsCall cart_key
    match dispatch call with
    | .ok j => .ok j [call]
    | .error e => .runtimeError ("Failed to get order options: " ++ e.toStr) e [call]

/-- The request built by `get_order`: POST `order/get`. -/
def getOrderCall (order_number : String) : Call :=
  { method := .post, endpoint := "order/get", params := [],
    body := some (.obj [("OrderNumber", .str order_number)]) }

/-- `get_order` from `api/order.py`. -/
def get_order (order_number : String) (dispatch : Dispatch) : OpResult :=
  if pyBlank order_number then .valueError "Order number cannot be empty"
  else
    let call := getOrderCall order_number
    match dispatch call with
    | .ok j => .ok j [call]
    | .error e => .runtimeError ("Failed to get order: " ++ e.toStr) e [call]

/-- The request built by `list_order_history`: POST `orderhistory/query`
with body field `Days`. -/
def listOrderHistoryCall (days : Int) : Call :=
  { method := .post, endpoint := "orderhistory/query", params := [],
    body := some (.obj [("Days", .int days)]) }

/-- `list_order_history` from `api/order_history.py`. -/
def list_order_history (days : Int) (dispatch : Dispatch) : OpResult :=
  if days < 1 then .valueError "Days must be at least 1"
  else
    let call := listOrderHistoryCall days
    match dispatch call with
    | .ok j => .ok j [call]
    | .error e => .runtimeError ("Failed to get order history: " ++ e.toStr) e [call]

/-- Removes every entry with the given header name, the effect of
`self.session.headers.pop(key, None)`. All reads and writes in the source
use the exact literal header names, so an exact-case association-list model
of the session headers is faithful. -/
def removeHeader (hs : List (String × String)) (key : String) : List (String × String) :=
  hs.filter (fun p => !(p.1 == key))

/-- `APIClient._set_api_key_header` from `client.py`, as a function from the
session headers before the call to the session headers after it: both key
headers are popped, then at most one is set, chosen by the substring test
`"/search/" in endpoint` on the raw endpoint string, and only when the
chosen key is truthy (non-empty). -/
def setApiKeyHeader (part_api_key order_api_key endpoint : String)
    (sess : List (String × String)) : List (String × String) :=
  let cleared := removeHeader (removeHeader sess "SearchApi-Key") "OrderApi-Key"
  if strContains endpoint "/search/" then
    if pyTruthy part_api_key then cleared ++ [("SearchApi-Key", part_api_key)] else cleared
  else
    if pyTruthy order_api_key then cleared ++ [("OrderApi-Key", order_api_key)] else cleared

/-- The `APIClient` state from `client.py`: constructor fields plus the
mutable headers of the shared `requests.Session`. -/
structure APIClient where
  base_url : String
  timeout : Int
  part_api_key : String
  order_api_key : String
  debug : Bool
  sessionHeaders : List (String × String)

/-- The session headers a fresh `APIClient.__init__` installs. -/
def initSessionHeaders : List (String × String) := [("Content-Type", "application/json")]

/-- An outgoing HTTP request as the session issues it: absolute URL, the
session headers in force at dispatch time, query parameters and body. -/
structure HttpRequest where
  method : Method
  url : String
  headers : List (String × String)
  params : List (String × String)
  body : Option Json

/-- `APIClient.get`: mutate the key header slots, build the URL, issue the
request with the session headers. Returns the request together with the
client whose session headers were mutated. -/
def APIClient.get (c : APIClient) (endpoint : String)
    (params : List (String × String)) : HttpRequest × APIClient :=
  let hs := setApiKeyHeader c.part_api_key c.order_api_key endpoint c.sessionHeaders
  ({ method := .get, url := c.base_url ++ "/" ++ lstripSlash endpoint,
     headers := hs, params := params, body := none },
   { c with sessionHeaders := hs })

/-- `APIClient.post` from `client.py`. -/
def APIClient.post (c : APIClient) (endpoint : String) (json : Option Json) :
    HttpRequest × APIClient :=
  let hs := setApiKeyHeader c.part_api_key c.order_api_key endpoint c.sessionHeaders
  ({ method := .post, url := c.base_url ++ "/" ++ lstripSlash endpoint,
     headers := hs, params := [], body := json },
   { c with sessionHeaders := hs })

/-- `APIClient.put` from `client.py`. -/
def APIClient.put (c : APIClient) (endpoint : String) (json : Option Json) :
    HttpRequest × APIClient :=
  let hs := setApiKeyHeader c.part_api_key c.order_api_key endpoint c.sessionHeaders
  ({ method := .put, url := c.base_url ++ "/" ++ lstripSlash endpoint,
     headers := hs, params := [], body := json },
   { c with sessionHeaders := hs })

/-- `APIClient.delete` from `client.py`. -/
def APIClient.delete (c : APIClient) (endpoint : String) : HttpRequest × APIClient :=
  let hs := setApiKeyHeader c.part_api_key c.order_api_key endpoint c.sessionHeaders
  ({ method := .delete, url := c.base_url ++ "/" ++ lstripSlash endpoint,
     headers := hs, params := [], body := none },
   { c with sessionHeaders := hs })

/-- Whether a header with the given name is present. -/
def hasHeader (hs : List (String × String)) (key : String) : Bool :=
  hs.any (fun p => p.1 == key)

/-- The sub-list of the two authentication headers among a header list. -/
def keyHeadersOf (hs : List (String × String)) : List (String × String) :=
  hs.filter (fun p => p.1 == "SearchApi-Key" || p.1 == "OrderApi-Key")

/-- Spec-side restatement of the selection rule for comparison: the key
headers of an outgoing request computed fresh from the endpoint and the
configured keys alone, independent of any earlier session state. -/
def freshKeySelection (part_api_key order_api_key endpoint : String) :
    List (String × String) :=
  if strContains endpoint "/search/" then
    if pyTruthy part_api_key then [("SearchApi-Key", part_api_key)] else []
  else
    if pyTruthy order_api_key then [("OrderApi-Key", order_api_key)] else []

/-- The client configuration dictionary built by `get_client_config`,
abstracting over the process environment. -/
structure ClientConfig where
  part_api_key : String
  order_api_key : String
  api_base_url : String
  timeout : Int
  debug : Bool

/-- Python `str(b)` for a bool, as interpolated by the status f-string. -/
def pyBoolStr (b : Bool) : String := if b then "True" else "False"

/-- The `health_check` tool from `server.py`: a pure function of the
configuration; it takes no dispatch oracle because it makes no upstream
call. -/
def health_check (config : ClientConfig) : Json :=
  .obj [("status", .str "healthy"),
        ("server", .str "Mouser Electronics MCP Server"),
        ("version", .str "0.1.0"),
        ("part_api_configured", .bool (pyTruthy config.part_api_key)),
        ("order_api_configured", .bool (pyTruthy config.order_api_key)),
        ("base_url", .str config.api_base_url)]

/-- The `mouser://status` resource from `server.py`: the exact text the
f-string produces, again a pure function of the configuration with no
upstream call. -/
def get_server_status (config : ClientConfig) : String :=
  "\nMouser MCP Server Status:\n- Base URL: " ++ config.api_base_url ++
  "\n- Part Search API Key: " ++
  (if pyTruthy config.part_api_key then "✓ Configured" else "✗ Not configured") ++
  "\n- Order API Key: " ++
  (if pyTruthy config.order_api_key then "✓ Configured" else "✗ Not configured") ++
  "\n- Timeout: " ++ toString config.timeout ++ "s\n- Debug Mode: " ++
  pyBoolStr config.debug ++ "\n    "

/-- A dispatch oracle that always succeeds with an empty JSON object. -/
def dOk : Dispatch := fun _ => .ok (.obj [])

/-- A dispatch oracle that always raises a timeout. -/
def dErr : Dispatch := fun _ => .error .timeout

/-- C1: the claim states that every dispatched path containing the substring
`search` carries only the `SearchApi-Key` header. The code instead tests for
the substring `/search/`, which no dispatched endpoint contains (both search
operations dispatch paths starting with `search/`, without a leading slash),
so a search request with both keys configured carries the `OrderApi-Key`
header and no `SearchApi-Key` header — contradicting the claim, the spec,
and the code's own docstrings. This theorem evaluates the code at the
failing input. -/
theorem c1_search_endpoint_carries_order_key :
    (search_by_keyword "resistor" 5 0 dOk).trace.map Call.endpoint = ["search/keyword"] ∧
    (search_by_part_number "595-X" dOk).trace.map Call.endpoint = ["search/partnumber"] ∧
    strContains "search/keyword" "search" = true ∧
    strContains "search/partnumber" "search" = true ∧
    strContains "search/keyword" "/search/" = false ∧
    setApiKeyHeader "PART-KEY" "ORDER-KEY" "search/keyword" initSessionHeaders
      = [("Content-Type", "application/json"), ("OrderApi-Key", "ORDER-KEY")] ∧
    hasHeader (setApiKeyHeader "PART-KEY" "ORDER-KEY" "search/keyword" initSessionHeaders)
      "SearchApi-Key" = false ∧
    hasHeader (setApiKeyHeader "PART-KEY" "ORDER-KEY" "search/partnumber" initSessionHeaders)
      "OrderApi-Key" = true := by
  decide

/-- C2: for every domain operation with a required string argument, calling
it with that argument empty or whitespace-only yields a `ValueError` and an
empty call trace, for every dispatch oracle — the failure happens before any
request is built or dispatched. -/
theorem c2_blank_required_arg_short_circuits (s : String) (h : pyBlank s = true)
    (records start_record quantity quantity2 : Int) (other cp : String) (d : Dispatch) :
    ((search_by_keyword s records start_record d).isValueError = true ∧
      (search_by_keyword s records start_record d).trace = []) ∧
    ((search_by_part_number s d).isValueError = true ∧
      (search_by_part_number s d).trace = []) ∧
    ((get_cart s d).isValueError = true ∧ (get_cart s d).trace = []) ∧
    ((add_to_cart s other quantity cp d).isValueError = true ∧
      (add_to_cart s other quantity cp d).trace = []) ∧
    ((add_to_cart other s quantity cp d).isValueError = true ∧
      (add_to_cart other s quantity cp d).trace = []) ∧
    ((update_cart_item s other quantity2 d).isValueError = true ∧
      (update_cart_item s other quantity2 d).trace = []) ∧
    ((update_cart_item other s quantity2 d).isValueError = true ∧
      (update_cart_item other s quantity2 d).trace = []) ∧
    ((get_order_options s d).isValueError = true ∧ (get_order_options s d).trace = []) ∧
    ((get_order s d).isValueError = true ∧ (get_order s d).trace = []) := by
  by_cases ho : pyBlank other <;>
    refine ⟨?_, ?_, ?_, ?_, ?_, ?_, ?_, ?_, ?_⟩ <;>
      simp [search_by_keyword, search_by_part_number, get_cart, add_to_cart,
        update_cart_item, get_order_options, get_order, h, ho,
        OpResult.isValueError, OpResult.trace]

/-- C2 witness: the theorem applied at the whitespace-only string. -/
theorem c2_blank_required_arg_short_circuits_witness :
    pyBlank " \t " = true ∧
    (((search_by_keyword " \t " 10 0 dOk).isValueError = true ∧
       (search_by_keyword " \t " 10 0 dOk).trace = []) ∧
     ((search_by_part_number " \t " dOk).isValueError = true ∧
       (search_by_part_number " \t " dOk).trace = []) ∧
     ((get_cart " \t " dOk).isValueError = true ∧ (get_cart " \t " dOk).trace = []) ∧
     ((add_to_cart " \t " "595-X" 5 "" dOk).isValueError = true ∧
       (add_to_cart " \t " "595-X" 5 "" dOk).trace = []) ∧
     ((add_to_cart "595-X" " \t " 5 "" dOk).isValueError = true ∧
       (add_to_cart "595-X" " \t " 5 "" dOk).trace = []) ∧
     ((update_cart_item " \t " "595-X" 2 dOk).isValueError = true ∧
       (update_cart_item " \t " "595-X" 2 dOk).trace = []) ∧
     ((update_cart_item "595-X" " \t " 2 dOk).isValueError = true ∧
       (update_cart_item "595-X" " \t " 2 dOk).trace = []) ∧
     ((get_order_options " \t " dOk).isValueError = true ∧
       (get_order_options " \t " dOk).trace = []) ∧
     ((get_order " \t " dOk).isValueError = true ∧ (get_order " \t " dOk).trace = [])) :=
  ⟨by decide, c2_blank_required_arg_short_circuits " \t " (by decide) 10 0 5 2 "595-X" "" dOk⟩

/-- C4: `add_to_cart` with cart key `k1`, part number `595-X`, quantity 5 and
the default (empty) customer part number hands the client exactly one POST to
`cart/items/insert` whose JSON body is exactly the `CartKey`/`CartItems`
object of the claim, for every dispatch outcome. -/
theorem c4_add_to_cart_exact_request (d : Dispatch) :
    (add_to_cart "k1" "595-X" 5 "" d).trace =
      [{ method := .post, endpoint := "cart/items/insert", params := [],
         body := some (.obj
           [("CartKey", .str "k1"),
            ("CartItems", .arr [.obj
              [("MouserPartNumber", .str "595-X"),
               ("Quantity", .int 5),
               ("CustomerPartNumber", .str "")]])]) }] := by
  have h1 : pyBlank "k1" = false := by decide
  have h2 : pyBlank "595-X" = false := by decide
  have h3 : ¬ ((5 : Int) < 1) := by decide
  cases hdc : d (addToCartCall "k1" "595-X" 5 "") <;>
    (simp [add_to_cart, h1, h2, h3, hdc, OpResult.trace]; rfl)

/-- C5: with a non-blank keyword, `search_by_keyword` passes validation and
dispatches exactly one request for every `records` in the range 1..50, while
`records = 51` and `records = 0` raise `ValueError`s with distinct messages
(one for the upper bound, one for the lower bound). -/
theorem c5_records_bounds (kw : String) (h : pyBlank kw = false)
    (records start_record : Int) (h1 : 1 ≤ records) (h2 : records ≤ 50) (d : Dispatch) :
    (search_by_keyword kw records start_record d).isValueError = false ∧
    (search_by_keyword kw records start_record d).trace
      = [searchByKeywordCall kw records start_record] ∧
    search_by_keyword kw 51 start_record d
      = .valueError "Maximum 50 records per request (API limit)" ∧
    search_by_keyword kw 0 start_record d = .valueError "Records must be at least 1" ∧
    ("Maximum 50 records per request (API limit)" : String)
      ≠ "Records must be at least 1" := by
  have h50 : ¬ (records > 50) := by omega
  have hlt : ¬ (records < 1) := by omega
  refine ⟨?_, ?_, ?_, ?_, by decide⟩
  · cases hdc : d (searchByKeywordCall kw records start_record) <;>
      simp [search_by_keyword, h, h50, hlt, hdc, OpResult.isValueError]
  · cases hdc : d (searchByKeywordCall kw records start_record) <;>
      simp [search_by_keyword, h, h50, hlt, hdc, OpResult.trace]
  · simp [search_by_keyword, h, (by decide : ((51 : Int) > 50) = True)]
  · simp [search_by_keyword, h, (by decide : ((0 : Int) > 50) = False),
      (by decide : ((0 : Int) < 1) = True)]

/-- C5 witness: the theorem applied at keyword `STM32` and `records = 50`. -/
theorem c5_records_bounds_witness :
    pyBlank "STM32" = false ∧ (1 : Int) ≤ 50 ∧
    ((search_by_keyword "STM32" 50 0 dOk).isValueError = false ∧
     (search_by_keyword "STM32" 50 0 dOk).trace = [searchByKeywordCall "STM32" 50 0] ∧
     search_by_keyword "STM32" 51 0 dOk
       = .valueError "Maximum 50 records per request (API limit)" ∧
     search_by_keyword "STM32" 0 0 dOk = .valueError "Records must be at least 1" ∧
     ("Maximum 50 records per request (API limit)" : String)
       ≠ "Records must be at least 1") :=
  ⟨by decide, by decide,
   c5_records_bounds "STM32" (by decide) 50 0 (by decide) (by decide) dOk⟩

/-- C6 counterexample: the claim quantifies over every non-empty cart key,
but the whitespace cart key, which is non-empty, makes `update_cart_item`
with quantity 0 raise a `ValueError` instead of passing validation: the code
validates via `str.strip`, rejecting whitespace-only strings as well. -/
theorem c6_counterexample :
    (" " : String) ≠ "" ∧ ("595-X" : String) ≠ "" ∧
    (update_cart_item " " "595-X" 0 dOk).isValueError = true := by
  decide

/-- C6 as amended: for every cart key and part number that are non-blank
(non-empty after stripping whitespace), `update_cart_item` passes validation
at quantity 0 but raises `ValueError` for every negative quantity, and
`add_to_cart` raises `ValueError` for every quantity below 1 and passes
validation for every quantity at least 1. -/
theorem c6_quantity_bounds (ck pn : String) (hck : pyBlank ck = false)
    (hpn : pyBlank pn = false) (qNeg qLow qHigh : Int)
    (hneg : qNeg < 0) (hlow : qLow < 1) (hhigh : 1 ≤ qHigh) (cp : String) (d : Dispatch) :
    (update_cart_item ck pn 0 d).isValueError = false ∧
    update_cart_item ck pn qNeg d = .valueError "Quantity cannot be negative" ∧
    add_to_cart ck pn qLow cp d = .valueError "Quantity must be at least 1" ∧
    (add_to_cart ck pn qHigh cp d).isValueError = false := by
  have hh : ¬ (qHigh < 1) := by omega
  refine ⟨?_, ?_, ?_, ?_⟩
  · cases hdc : d (updateCartItemCall ck pn 0) <;>
      simp [update_cart_item, hck, hpn, hdc, OpResult.isValueError]
  · simp [update_cart_item, hck, hpn, hneg]
  · simp [add_to_cart, hck, hpn, hlow]
  · cases hdc : d (addToCartCall ck pn qHigh cp) <;>
      simp [add_to_cart, hck, hpn, hh, hdc, OpResult.isValueError]

/-- C6 witness: the amended theorem applied at concrete cart key, part
number and quantities. -/
theorem c6_quantity_bounds_witness :
    pyBlank "cart-1" = false ∧ pyBlank "595-X" = false ∧
    ((update_cart_item "cart-1" "595-X" 0 dOk).isValueError = false ∧
     update_cart_item "cart-1" "595-X" (-2) dOk
       = .valueError "Quantity cannot be negative" ∧
     add_to_cart "cart-1" "595-X" 0 "" dOk = .valueError "Quantity must be at least 1" ∧
     (add_to_cart "cart-1" "595-X" 3 "" dOk).isValueError = false) :=
  ⟨by decide, by decide,
   c6_quantity_bounds "cart-1" "595-X" (by decide) (by decide) (-2) 0 3
     (by decide) (by decide) (by decide) "" dOk⟩

/-- C7: `list_order_history` raises `ValueError` for every `days` below 1,
with an empty call trace (no network call), and for every `days` at least 1
it passes validation and hands the client one POST to `orderhistory/query`
with body field `Days` set to `days`. -/
theorem c7_order_history_days (days : Int) (d : Dispatch) :
    (days < 1 →
      list_order_history days d = .valueError "Days must be at least 1" ∧
      (list_order_history days d).trace = []) ∧
    (1 ≤ days →
      (list_order_history days d).isValueError = false ∧
      (list_order_history days d).trace =
        [{ method := .post, endpoint := "orderhistory/query", params := [],
           body := some (.obj [("Days", .int days)]) }]) := by
  constructor
  · intro hlt
    simp [list_order_history, hlt, OpResult.trace]
  · intro hge
    have hh : ¬ (days < 1) := by omega
    constructor
    · cases hdc : d (listOrderHistoryCall days) <;>
        simp [list_order_history, hh, hdc, OpResult.isValueError]
    · cases hdc : d (listOrderHistoryCall days) <;>
        (simp [list_order_history, hh, hdc, OpResult.trace]; rfl)

/-- C7 witness: the theorem applied at `days = 0` and `days = 30`. -/
theorem c7_order_history_days_witness :
    (list_order_history 0 dOk = .valueError "Days must be at least 1" ∧
      (list_order_history 0 dOk).trace = []) ∧
    ((list_order_history 30 dOk).isValueError = false ∧
      (list_order_history 30 dOk).trace =
        [{ method := .post, endpoint := "orderhistory/query", params := [],
           body := some (.obj [("Days", .int 30)]) }]) :=
  ⟨(c7_order_history_days 0 dOk).1 (by decide),
   (c7_order_history_days 30 dOk).2 (by decide)⟩

/-- C10 counterexample: the claim quantifies over every non-empty keyword,
but the whitespace keyword, which is non-empty, fails validation and makes
no call, because the code rejects whitespace-only keywords via `str.strip`. -/
theorem c10_counterexample :
    (" " : String) ≠ "" ∧
    (search_by_keyword " " 10 (-3) dOk).isValueError = true ∧
    (search_by_keyword " " 10 (-3) dOk).trace.length = 0 := by
  decide

/-- C10 as amended: `search_by_keyword` performs no validation on
`start_record`: for every integer `start_record`, including negatives, a
call with a non-blank keyword and `records` in 1..50 passes validation and
forwards `start_record` verbatim as the `startingRecord` field nested under
`SearchByKeywordRequest` in the POST body. -/
theorem c10_start_record_passthrough (kw : String) (h : pyBlank kw = false)
    (records : Int) (h1 : 1 ≤ records) (h2 : records ≤ 50)
    (start_record : Int) (d : Dispatch) :
    (search_by_keyword kw records start_record d).isValueError = false ∧
    (search_by_keyword kw records start_record d).trace =
      [{ method := .post, endpoint := "search/keyword", params := [],
         body := some (.obj [("SearchByKeywordRequest", .obj
           [("keyword", .str kw),
            ("records", .int records),
            ("startingRecord", .int start_record)])]) }] := by
  have h50 : ¬ (records > 50) := by omega
  have hlt : ¬ (records < 1) := by omega
  constructor
  · cases hdc : d (searchByKeywordCall kw records start_record) <;>
      simp [search_by_keyword, h, h50, hlt, hdc, OpResult.isValueError]
  · cases hdc : d (searchByKeywordCall kw records start_record) <;>
      (simp [search_by_keyword, h, h50, hlt, hdc, OpResult.trace]; rfl)

/-- C10 witness: the amended theorem applied at a negative starting record. -/
theorem c10_start_record_passthrough_witness :
    pyBlank "resistor 10k" = false ∧
    ((search_by_keyword "resistor 10k" 25 (-7) dOk).isValueError = false ∧
     (search_by_keyword "resistor 10k" 25 (-7) dOk).trace =
       [{ method := .post, endpoint := "search/keyword", params := [],
          body := some (.obj [("SearchByKeywordRequest", .obj
            [("keyword", .str "resistor 10k"),
             ("records", .int 25),
             ("startingRecord", .int (-7))])]) }]) :=
  ⟨by decide,
   c10_start_record_passthrough "resistor 10k" (by decide) 25 (by decide) (by decide)
     (-7) dOk⟩

/-- C8: the health check and the status resource are pure functions of the
configuration (their embeddings take no dispatch oracle, mirroring that the
source makes no upstream call), and they depend on each API key only through
its configuredness: any two configurations agreeing on base URL, timeout,
debug flag and the truthiness of each key produce identical results, however
the key strings differ. -/
theorem c8_key_noninterference (c1 c2 : ClientConfig)
    (hb : c1.api_base_url = c2.api_base_url) (ht : c1.timeout = c2.timeout)
    (hdbg : c1.debug = c2.debug)
    (hp : pyTruthy c1.part_api_key = pyTruthy c2.part_api_key)
    (ho : pyTruthy c1.order_api_key = pyTruthy c2.order_api_key) :
    health_check c1 = health_check c2 ∧ get_server_status c1 = get_server_status c2 := by
  constructor
  · simp [health_check, hb, hp, ho]
  · simp [get_server_status, hb, ht, hdbg, hp, ho]

/-- C8 witness: two configurations with different (both configured) key
values are indistinguishable through both capabilities. -/
theorem c8_key_noninterference_witness :
    ("alpha-key" : String) ≠ "beta-key" ∧ ("gamma-key" : String) ≠ "delta-key" ∧
    health_check ⟨"alpha-key", "gamma-key", "https://api.mouser.com/api/v1", 30, false⟩
      = health_check ⟨"beta-key", "delta-key", "https://api.mouser.com/api/v1", 30, false⟩ ∧
    get_server_status ⟨"alpha-key", "gamma-key", "https://api.mouser.com/api/v1", 30, false⟩
      = get_server_status ⟨"beta-key", "delta-key", "https://api.mouser.com/api/v1", 30, false⟩ :=
  ⟨by decide, by decide,
   (c8_key_noninterference _ _ rfl rfl rfl (by decide) (by decide)).1,
   (c8_key_noninterference
     ⟨"alpha-key", "gamma-key", "https://api.mouser.com/api/v1", 30, false⟩
     ⟨"beta-key", "delta-key", "https://api.mouser.com/api/v1", 30, false⟩
     rfl rfl rfl (by decide) (by decide)).2⟩

/-- C3: for every domain operation with arguments passing validation, when
dispatch raises any transport exception the operation returns a
`RuntimeError` whose message names the failed operation and interpolates the
cause, with the original exception preserved as the cause and exactly one
dispatch attempted (the trace is one call — no retry); no failure subtype is
distinguished, the same wrapping applying to every exception value. -/
theorem c3_dispatch_error_uniformly_wrapped
    (kw pn ck ordNum cp : String) (records start_record q q2 days : Int)
    (hkw : pyBlank kw = false) (hpn : pyBlank pn = false) (hck : pyBlank ck = false)
    (hon : pyBlank ordNum = false)
    (hr1 : 1 ≤ records) (hr2 : records ≤ 50) (hq : 1 ≤ q) (hq2 : 0 ≤ q2)
    (hdays : 1 ≤ days)
    (e : TransportExn) (d : Dispatch) (hd : ∀ call, d call = .error e) :
    search_by_keyword kw records start_record d
      = .runtimeError ("Failed to search by keyword: " ++ e.toStr) e
          [searchByKeywordCall kw records start_record] ∧
    search_by_part_number pn d
      = .runtimeError ("Failed to search by part number: " ++ e.toStr) e
          [searchByPartNumberCall pn] ∧
    get_cart ck d
      = .runtimeError ("Failed to retrieve cart: " ++ e.toStr) e [getCartCall ck] ∧
    add_to_cart ck pn q cp d
      = .runtimeError ("Failed to add item to cart: " ++ e.toStr) e
          [addToCartCall ck pn q cp] ∧
    update_cart_item ck pn q2 d
      = .runtimeError ("Failed to update cart item: " ++ e.toStr) e
          [updateCartItemCall ck pn q2] ∧
    get_order_options ck d
      = .runtimeError ("Failed to get order options: " ++ e.toStr) e
          [getOrderOptionsCall ck] ∧
    get_order ordNum d
      = .runtimeError ("Failed to get order: " ++ e.toStr) e [getOrderCall ordNum] ∧
    list_order_history days d
      = .runtimeError ("Failed to get order history: " ++ e.toStr) e
          [listOrderHistoryCall days] := by
  have h50 : ¬ (records > 50) := by omega
  have hlt : ¬ (records < 1) := by omega
  have hq' : ¬ (q < 1) := by omega
  have hq2' : ¬ (q2 < 0) := by omega
  have hdays' : ¬ (days < 1) := by omega
  refine ⟨?_, ?_, ?_, ?_, ?_, ?_, ?_, ?_⟩ <;>
    simp [search_by_keyword, search_by_part_number, get_cart, add_to_cart,
      update_cart_item, get_order_options, get_order, list_order_history,
      hkw, hpn, hck, hon, h50, hlt, hq', hq2', hdays', hd]

/-- C3 witness: the theorem applied at concrete arguments with a timeout
dispatch oracle. -/
theorem c3_dispatch_error_uniformly_wrapped_witness :
    pyBlank "STM32" = false ∧
    (search_by_keyword "STM32" 5 0 dErr
       = .runtimeError ("Failed to search by keyword: " ++ TransportExn.timeout.toStr)
           .timeout [searchByKeywordCall "STM32" 5 0] ∧
     search_by_part_number "595-X" dErr
       = .runtimeError ("Failed to search by part number: " ++ TransportExn.timeout.toStr)
           .timeout [searchByPartNumberCall "595-X"] ∧
     get_cart "cart-1" dErr
       = .runtimeError ("Failed to retrieve cart: " ++ TransportExn.timeout.toStr)
           .timeout [getCartCall "cart-1"] ∧
     add_to_cart "cart-1" "595-X" 2 "" dErr
       = .runtimeError ("Failed to add item to cart: " ++ TransportExn.timeout.toStr)
           .timeout [addToCartCall "cart-1" "595-X" 2 ""] ∧
     update_cart_item "cart-1" "595-X" 0 dErr
       = .runtimeError ("Failed to update cart item: " ++ TransportExn.timeout.toStr)
           .timeout [updateCartItemCall "cart-1" "595-X" 0] ∧
     get_order_options "cart-1" dErr
       = .runtimeError ("Failed to get order options: " ++ TransportExn.timeout.toStr)
           .timeout [getOrderOptionsCall "cart-1"] ∧
     get_order "WEB123" dErr
       = .runtimeError ("Failed to get order: " ++ TransportExn.timeout.toStr)
           .timeout [getOrderCall "WEB123"] ∧
     list_order_history 30 dErr
       = .runtimeError ("Failed to get order history: " ++ TransportExn.timeout.toStr)
           .timeout [listOrderHistoryCall 30]) :=
  ⟨by decide,
   c3_dispatch_error_uniformly_wrapped "STM32" "595-X" "cart-1" "WEB123" "" 5 0 2 0 30
     (by decide) (by decide) (by decide) (by decide) (by decide) (by decide)
     (by decide) (by decide) (by decide) .timeout dErr (fun _ => rfl)⟩

/-- Popping both key headers leaves no key header, whatever the session
held before. -/
lemma keyHeadersOf_cleared (sess : List (String × String)) :
    keyHeadersOf (removeHeader (removeHeader sess "SearchApi-Key") "OrderApi-Key") = [] := by
  simp only [keyHeadersOf, removeHeader, List.filter_filter]
  rw [List.filter_eq_nil_iff]
  intro p _
  by_cases h1 : p.1 = "SearchApi-Key" <;> by_cases h2 : p.1 = "OrderApi-Key" <;>
    simp [h1, h2]

/-- `keyHeadersOf` distributes over appending header lists. -/
lemma keyHeadersOf_append (a b : List (String × String)) :
    keyHeadersOf (a ++ b) = keyHeadersOf a ++ keyHeadersOf b :=
  List.filter_append a b

/-- A freshly set search-key header survives the key-header filter. -/
lemma keyHeadersOf_search_single (pk : String) :
    keyHeadersOf [("SearchApi-Key", pk)] = [("SearchApi-Key", pk)] := by
  simp [keyHeadersOf]

/-- A freshly set order-key header survives the key-header filter. -/
lemma keyHeadersOf_order_single (ok : String) :
    keyHeadersOf [("OrderApi-Key", ok)] = [("OrderApi-Key", ok)] := by
  simp [keyHeadersOf]

/-- The key headers of the session after `_set_api_key_header` are exactly
the fresh selection computed from the endpoint and the configured keys:
older key headers never survive. -/
lemma keyHeadersOf_setApiKeyHeader (pk ok ep : String) (sess : List (String × String)) :
    keyHeadersOf (setApiKeyHeader pk ok ep sess) = freshKeySelection pk ok ep := by
  unfold setApiKeyHeader freshKeySelection
  by_cases hc : strContains ep "/search/" <;>
    by_cases hk : pyTruthy pk <;> by_cases hk2 : pyTruthy ok <;>
      simp [hc, hk, hk2, keyHeadersOf_append, keyHeadersOf_cleared,
        keyHeadersOf_search_single, keyHeadersOf_order_single]

/-- For the two key headers, presence is decided by the key-header
sub-list. -/
lemma hasHeader_eq_of_keyHeadersOf (hs : List (String × String)) (k : String)
    (hk : k = "SearchApi-Key" ∨ k = "OrderApi-Key") :
    hasHeader (keyHeadersOf hs) k = hasHeader hs k := by
  have hfun : (fun p : String × String =>
      (p.1 == "SearchApi-Key" || p.1 == "OrderApi-Key") && p.1 == k)
      = (fun p : String × String => p.1 == k) := by
    funext p
    by_cases hp : p.1 = k
    · rcases hk with h | h <;> simp [hp, h]
    · simp [hp]
  rw [hasHeader, keyHeadersOf, List.any_filter, hfun, hasHeader]

/-- The search-key header is present after `_set_api_key_header` exactly
when the endpoint matches the search branch and the part key is truthy. -/
lemma hasHeader_setApiKeyHeader_search (pk ok ep : String)
    (sess : List (String × String)) :
    hasHeader (setApiKeyHeader pk ok ep sess) "SearchApi-Key"
      = (strContains ep "/search/" && pyTruthy pk) := by
  rw [← hasHeader_eq_of_keyHeadersOf _ _ (Or.inl rfl), keyHeadersOf_setApiKeyHeader]
  unfold freshKeySelection
  by_cases hc : strContains ep "/search/" <;> by_cases hk : pyTruthy pk <;>
    by_cases hk2 : pyTruthy ok <;> simp [hc, hk, hk2, hasHeader]

/-- The order-key header is present after `_set_api_key_header` exactly
when the endpoint misses the search branch and the order key is truthy. -/
lemma hasHeader_setApiKeyHeader_order (pk ok ep : String)
    (sess : List (String × String)) :
    hasHeader (setApiKeyHeader pk ok ep sess) "OrderApi-Key"
      = (!(strContains ep "/search/") && pyTruthy ok) := by
  rw [← hasHeader_eq_of_keyHeadersOf _ _ (Or.inr rfl), keyHeadersOf_setApiKeyHeader]
  unfold freshKeySelection
  by_cases hc : strContains ep "/search/" <;> by_cases hk : pyTruthy pk <;>
    by_cases hk2 : pyTruthy ok <;> simp [hc, hk, hk2, hasHeader]

/-- C9: every client method (GET, POST, PUT, DELETE) issues its request with
the session headers produced by `_set_api_key_header`, which first removes
both key headers: the outgoing key headers equal the fresh selection from
the endpoint alone, independent of earlier session state, so at most one of
the two key headers is ever present, a key header set by an earlier call to
a different endpoint family never remains, and when the selected key is the
empty string the request carries neither key header. -/
theorem c9_header_reset (c : APIClient) (ep : String)
    (params : List (String × String)) (body : Option Json) :
    ((APIClient.get c ep params).1.headers
        = setApiKeyHeader c.part_api_key c.order_api_key ep c.sessionHeaders ∧
     (APIClient.post c ep body).1.headers
        = setApiKeyHeader c.part_api_key c.order_api_key ep c.sessionHeaders ∧
     (APIClient.put c ep body).1.headers
        = setApiKeyHeader c.part_api_key c.order_api_key ep c.sessionHeaders ∧
     (APIClient.delete c ep).1.headers
        = setApiKeyHeader c.part_api_key c.order_api_key ep c.sessionHeaders) ∧
    keyHeadersOf (setApiKeyHeader c.part_api_key c.order_api_key ep c.sessionHeaders)
      = freshKeySelection c.part_api_key c.order_api_key ep ∧
    (hasHeader (setApiKeyHeader c.part_api_key c.order_api_key ep c.sessionHeaders)
        "SearchApi-Key"
      && hasHeader (setApiKeyHeader c.part_api_key c.order_api_key ep c.sessionHeaders)
        "OrderApi-Key") = false ∧
    (strContains ep "/search/" = true → c.part_api_key = "" →
      hasHeader (setApiKeyHeader c.part_api_key c.order_api_key ep c.sessionHeaders)
        "SearchApi-Key" = false ∧
      hasHeader (setApiKeyHeader c.part_api_key c.order_api_key ep c.sessionHeaders)
        "OrderApi-Key" = false) ∧
    (strContains ep "/search/" = false → c.order_api_key = "" →
      hasHeader (setApiKeyHeader c.part_api_key c.order_api_key ep c.sessionHeaders)
        "SearchApi-Key" = false ∧
      hasHeader (setApiKeyHeader c.part_api_key c.order_api_key ep c.sessionHeaders)
        "OrderApi-Key" = false) := by
  refine ⟨⟨rfl, rfl, rfl, rfl⟩, keyHeadersOf_setApiKeyHeader .., ?_, ?_, ?_⟩
  · rw [hasHeader_setApiKeyHeader_search, hasHeader_setApiKeyHeader_order]
    cases strContains ep "/search/" <;> simp
  · intro hc hpk
    rw [hasHeader_setApiKeyHeader_search, hasHeader_setApiKeyHeader_order]
    simp [hc, hpk, pyTruthy]
  · intro hc hok
    rw [hasHeader_setApiKeyHeader_search, hasHeader_setApiKeyHeader_order]
    simp [hc, hok, pyTruthy]

/-- A client with a stale search-key header in its session and an empty
part key, used to witness the header-reset theorem. -/
def staleClient : APIClient :=
  { base_url := "https://api.mouser.com/api/v1", timeout := 30,
    part_api_key := "", order_api_key := "OK9", debug := false,
    sessionHeaders := [("Content-Type", "application/json"),
                       ("SearchApi-Key", "STALE")] }

/-- C9 witness: on a search-branch endpoint with an empty part key, the
stale search-key header is removed and the request carries neither key
header. -/
theorem c9_header_reset_witness :
    (hasHeader (setApiKeyHeader "" "OK9" "/search/x"
        [("Content-Type", "application/json"), ("SearchApi-Key", "STALE")])
        "SearchApi-Key"
      && hasHeader (setApiKeyHeader "" "OK9" "/search/x"
        [("Content-Type", "application/json"), ("SearchApi-Key", "STALE")])
        "OrderApi-Key") = false ∧
    (hasHeader (setApiKeyHeader "" "OK9" "/search/x"
        [("Content-Type", "application/json"), ("SearchApi-Key", "STALE")])
        "SearchApi-Key" = false ∧
     hasHeader (setApiKeyHeader "" "OK9" "/search/x"
        [("Content-Type", "application/json"), ("SearchApi-Key", "STALE")])
        "OrderApi-Key" = false) :=
  ⟨(c9_header_reset staleClient "/search/x" [] none).2.2.1,
   (c9_header_reset staleClient "/search/x" [] none).2.2.2.1 (by decide) rfl⟩
